import Mathlib

/-!
# Verification of the Renode External Control client (renodeAPI)

Shallow embedding of the protocol/client layer found in
`src/renodeAPI/` (renodeInterface.cpp, zmqInterface.cpp, defs.h,
renodeInterface.h, zmqInterface.hpp).  Byte streams are modelled as
`List Nat` (each element a byte value), machine integers as `Nat`/`Int`
with explicit reductions modulo powers of two where the source relies on
fixed-width behaviour, and fallible code as `Except`/`Option`.
-/

namespace Renode

/-! ## Little-endian helpers (defs.h: write_u16_le / write_u32_le and the
inline size decodes in recv_response) -/

/-- `write_u16_le` (defs.h lines 106-109): append the two little-endian
bytes of a 16-bit value. -/
def write_u16_le (v : Nat) : List Nat :=
  [v % 256, v / 256 % 256]

/-- `write_u32_le` (defs.h lines 110-115): the four little-endian bytes of
a 32-bit value. -/
def write_u32_le (v : Nat) : List Nat :=
  [v % 256, v / 256 % 256, v / 2 ^ 16 % 256, v / 2 ^ 24 % 256]

/-- Little-endian decoding of a byte list (first byte least significant);
this is the `sizebuf[0] | sizebuf[1] << 8 | ...` computation in
`recv_response` generalised to any length. -/
def decodeLE (bs : List Nat) : Nat :=
  bs.foldr (fun b acc => b + 256 * acc) 0

/-- Reinterpret a 32-bit unsigned value as the signed `int32_t` obtained by
`std::memcpy` into an `int32_t` on a little-endian host
(renodeInterface.cpp line 294). -/
def toInt32 (u : Nat) : Int :=
  if u < 2 ^ 31 then (u : Int) else (u : Int) - 2 ^ 32

/-! ## Transport (defs.h: read_all / write_all)

`read_all` (defs.h lines 130-139) loops calling `recv` until `len` bytes
have accumulated, failing as soon as a call returns `r <= 0`.  Two views
are embedded: `read_all_frag` keeps the per-`recv` fragmentation explicit
(each list element is the byte chunk one `recv` call returned; an empty
chunk models `recv` returning `0` or an error), and `readAll` is the
flat denotation used by the response decoder, where the stream holds all
bytes the peer will deliver before closing. -/

/-- `read_all` over an explicit fragmentation: `fs` lists the chunk each
successive `recv` call returns (`recv` never returns more than the
requested remainder, so an over-long chunk is also rejected).  `none`
models the `return false` path. -/
def read_all_frag : Nat → List (List Nat) → Option (List Nat)
  | 0, _ => some []
  | _ + 1, [] => none
  | n + 1, f :: fs =>
    if f.length = 0 then none
    else if f.length ≤ n + 1 then
      (read_all_frag (n + 1 - f.length) fs).map (f ++ ·)
    else none

/-- Flat denotation of `read_all` over the full byte stream the peer
delivers: succeed with the first `n` bytes and the remainder exactly when
at least `n` bytes are available. -/
def readAll (stream : List Nat) (n : Nat) : Option (List Nat × List Nat) :=
  if n ≤ stream.length then some (stream.take n, stream.drop n) else none

/-! ## Return codes

renodeInterface.cpp uses `enum renode_return_code` from defs.h
(lines 57-65): COMMAND_FAILED = 0, FATAL_ERROR = 1, INVALID_COMMAND = 2,
SUCCESS_WITH_DATA = 3, SUCCESS_WITHOUT_DATA = 4, OK_HANDSHAKE = 5,
ASYNC_EVENT = 6.

zmqInterface.cpp declares its own local constants (lines 200-206):
COMMAND_FAILED = 1, INVALID_COMMAND = 2, SUCCESS_WITH_DATA = 3,
SUCCESS_WITHOUT_DATA = 5, FATAL_ERROR = 6, ASYNC_EVENT = 7. -/

def COMMAND_FAILED : Nat := 0
def FATAL_ERROR : Nat := 1
def INVALID_COMMAND : Nat := 2
def SUCCESS_WITH_DATA : Nat := 3
def SUCCESS_WITHOUT_DATA : Nat := 4
def OK_HANDSHAKE : Nat := 5
def ASYNC_EVENT : Nat := 6

/-- Command ids (`ApiCommand`, defs.h lines 29-38). -/
def RUN_FOR : Nat := 1
def GET_TIME : Nat := 2
def GET_MACHINE : Nat := 3

/-! ## Response decoding (renodeInterface.cpp recv_response, lines 156-229)

The decoder is split exactly along the source's control flow: read the
return code, optionally read the echoed command (initialised to `0xFF`),
then the `switch` on the return code, then the echo-validation `if`.
The result also carries the unconsumed remainder of the stream, so that
theorems can speak about exactly which bytes were read.  A thrown
`std::runtime_error` is `.error`; the "truncated frame" branches, which
log and `return {}`, are `.ok ([], [])` (on a truncated read the socket
has been drained of whatever arrived). -/

/-- Echo validation and return (renodeInterface.cpp lines 217-228):
mismatch throws unless the echoed byte still holds the `0xFF` sentinel. -/
def recvFinish (expected received : Nat) (payload rest : List Nat) :
    Except String (List Nat × List Nat) :=
  if received ≠ 255 ∧ received ≠ expected then
    .error "recv_response: command mismatch (server echoed different command)"
  else .ok (payload, rest)

/-- The `switch (return_code)` body of recv_response (renodeInterface.cpp
lines 186-214) followed by echo validation. -/
def recvBody (expected code received : Nat) (s : List Nat) :
    Except String (List Nat × List Nat) :=
  if code = COMMAND_FAILED ∨ code = FATAL_ERROR ∨ code = SUCCESS_WITH_DATA then
    match readAll s 4 with
    | none => .ok ([], [])
    | some (szb, s3) =>
      match readAll s3 (decodeLE szb) with
      | none => .ok ([], [])
      | some (payload, s4) => recvFinish expected received payload s4
  else if code = INVALID_COMMAND ∨ code = SUCCESS_WITHOUT_DATA then
    recvFinish expected received [] s
  else if code = ASYNC_EVENT then
    .error "recv_response: unexpected async event"
  else
    -- default: logs "unexpected return code" to stderr and falls through
    recvFinish expected received [] s

/-- `ExternalControlClient::recv_response` (renodeInterface.cpp
lines 156-229) as a function of the expected command and the byte stream
available from the peer.  Returns the payload together with the
unconsumed remainder of the stream. -/
def recv_responseR (expected : Nat) : List Nat → Except String (List Nat × List Nat)
  | [] => .error "recv_response: failed to read return code"
  | code :: rest =>
    if code = COMMAND_FAILED ∨ code = INVALID_COMMAND ∨
        code = SUCCESS_WITH_DATA ∨ code = SUCCESS_WITHOUT_DATA then
      match rest with
      | [] => .error "recv_response: failed to read echoed command"
      | echo :: rest2 => recvBody expected code echo rest2
    else
      recvBody expected code 255 rest

/-! ## Response decoding, zmqInterface.cpp variant (lines 186-272)

Same control flow as the renodeInterface.cpp variant but with the local
return-code constants of zmqInterface.cpp, and an additional
`expected_command != 0xFF` guard on the echo validation (line 260). -/

/-- Echo validation of zmqInterface.cpp recv_response (lines 259-266). -/
def recvFinishZ (expected received : Nat) (payload rest : List Nat) :
    Except String (List Nat × List Nat) :=
  if expected ≠ 255 ∧ received ≠ 255 ∧ received ≠ expected then
    .error "recv_response: command mismatch (server echoed different command)"
  else .ok (payload, rest)

/-- The `switch (return_code)` body of zmqInterface.cpp recv_response
(lines 229-257) followed by echo validation.  Data-bearing codes are
COMMAND_FAILED = 1, FATAL_ERROR = 6, SUCCESS_WITH_DATA = 3; echo-only
codes are INVALID_COMMAND = 2, SUCCESS_WITHOUT_DATA = 5; ASYNC_EVENT = 7
throws; anything else only logs. -/
def recvBodyZ (expected code received : Nat) (s : List Nat) :
    Except String (List Nat × List Nat) :=
  if code = 1 ∨ code = 6 ∨ code = 3 then
    match readAll s 4 with
    | none => .ok ([], [])
    | some (szb, s3) =>
      match readAll s3 (decodeLE szb) with
      | none => .ok ([], [])
      | some (payload, s4) => recvFinishZ expected received payload s4
  else if code = 2 ∨ code = 5 then
    recvFinishZ expected received [] s
  else if code = 7 then
    .error "recv_response: unexpected async event"
  else
    recvFinishZ expected received [] s

/-- `ExternalControlClient::recv_response` of zmqInterface.cpp
(lines 186-272).  The echoed command is read for return codes
COMMAND_FAILED = 1, INVALID_COMMAND = 2, SUCCESS_WITH_DATA = 3 and
SUCCESS_WITHOUT_DATA = 5 (line 210), not for FATAL_ERROR = 6. -/
def recv_responseZ (expected : Nat) : List Nat → Except String (List Nat × List Nat)
  | [] => .error "recv_response: failed to read return code"
  | code :: rest =>
    if code = 1 ∨ code = 2 ∨ code = 3 ∨ code = 5 then
      match rest with
      | [] => .error "recv_response: failed to read echoed command"
      | echo :: rest2 => recvBodyZ expected code echo rest2
    else
      recvBodyZ expected code 255 rest

/-! ## Handshake (renodeInterface.cpp performHandshake, lines 89-120) -/

/-- The fixed activation table `command_versions` (defs.h lines 41-48):
(command id, version) pairs in declaration order. -/
def command_versions : List (Nat × Nat) :=
  [(1, 0), (2, 0), (3, 0), (4, 0), (5, 1), (6, 0)]

/-- Handshake buffer construction (renodeInterface.cpp lines 91-98):
refuse a table larger than `UINT16_MAX`, otherwise a 2-byte little-endian
count followed by the (command, version) pairs in table order. -/
def encodeHandshake (tbl : List (Nat × Nat)) : Option (List Nat) :=
  if tbl.length > 65535 then none
  else some (write_u16_le tbl.length ++ tbl.foldr (fun p acc => p.1 :: p.2 :: acc) [])

/-- `ExternalControlClient::performHandshake` (renodeInterface.cpp
lines 89-120) as a function of the single response byte the server sends
(`none` models `read_byte` failing).  `true` exactly when the byte equals
`OK_HANDSHAKE` = 5; any other byte is logged and yields `false` with no
retry and no exception. -/
def performHandshake (resp : Option Nat) : Bool :=
  if command_versions.length > 65535 then false
  else
    match resp with
    | none => false
    | some b => if b = OK_HANDSHAKE then true else false

/-! ## Time units (defs.h lines 84-88) and getCurrentTime -/

inductive TimeUnit
  | TU_MICROSECONDS
  | TU_MILLISECONDS
  | TU_SECONDS
deriving DecidableEq, Repr

/-- Numeric value of each `TimeUnit` enumerator (defs.h lines 84-88). -/
def timeUnitValue : TimeUnit → Nat
  | .TU_MICROSECONDS => 1
  | .TU_MILLISECONDS => 1000
  | .TU_SECONDS => 1000000

/-- Modelled from the spec: `getCurrentTime`/`getCurrentTimeMicroseconds`
are declared in renodeInterface.h (lines 88-92) but have no
implementation anywhere under src/.  Per spec §4.4 the call wraps the
GetTime command, decodes an 8-byte little-endian microsecond counter
from the response payload, and converts to the requested unit by integer
division by the `TimeUnit` value ({1, 1000, 1000000}).  The response
itself is decoded by the implemented `recv_response`
(renodeInterface.cpp), embedded above as `recv_responseR`. -/
def getCurrentTime (stream : List Nat) (unit : TimeUnit) : Option Nat :=
  match recv_responseR GET_TIME stream with
  | .error _ => none
  | .ok (payload, _) =>
    if payload.length = 8 then some (decodeLE payload / timeUnitValue unit)
    else none

/-! ## Client state and getMachine (renodeInterface.cpp lines 24-33 and
259-315)

`ExternalControlClient::Impl` holds `connected` and the machine-name
cache `std::map<std::string, std::weak_ptr<AMachine>>`; the socket
descriptor `sock_fd_` is the namespace-scope static of
renodeInterface.h line 48 (its process-global sharing is modelled
separately below for the ownership claim; here one client is in play, so
it appears as a state field).  Machine identity (`shared_ptr` object
identity) is modelled by an index into `heap`, the list of `AMachine`
objects ever created, in creation order; `cache` maps a name to the
index its `weak_ptr` points at, and `alive` tells whether `lock()` on
that `weak_ptr` still succeeds (some caller still holds the
`shared_ptr`). -/

/-- `AMachine::Impl` (renodeInterface.cpp lines 243-248): the data behind
a machine handle. -/
structure MachineData where
  name : String
deriving DecidableEq, Repr

/-- Recoverable error object (renodeInterface.h lines 23-27). -/
structure Error where
  code : Int
  message : String
deriving DecidableEq, Repr

structure ClientState where
  connected : Bool
  sockFd : Int
  heap : List MachineData
  cache : String → Option Nat
  alive : Nat → Bool

/-- The send-then-receive round trip of `send_command` as seen from
`getMachine`: `send_bytes` throws "socket closed" when the shared
descriptor is negative (renodeInterface.cpp lines 148-154), otherwise
the response is decoded by `recv_response` and its payload returned. -/
def sendCommandResult (s : ClientState) (expected : Nat) (stream : List Nat) :
    Except String (List Nat) :=
  if s.sockFd < 0 then .error "socket closed"
  else
    match recv_responseR expected stream with
    | .error e => .error e
    | .ok (payload, _) => .ok payload

/-- The success tail of `getMachine` (renodeInterface.cpp lines 308-314):
build a fresh `AMachine`, register it in the cache under `name`, and hand
the new `shared_ptr` to the caller.  Line 310 (`instImpl->name =
descriptor;`) assigns the `int32_t` descriptor to the `std::string` name
field through `std::string::operator=(char)`, so the stored name becomes
the single character holding the descriptor's low byte. -/
def registerFresh (s : ClientState) (name : String) (d : Int) :
    Option Nat × Error × ClientState :=
  let id := s.heap.length
  (some id, ⟨0, ""⟩,
    { s with
      heap := s.heap ++ [⟨String.mk [Char.ofNat (d.toNat % 256)]⟩]
      cache := fun n => if n = name then some id else s.cache n
      alive := fun i => if i = id then true else s.alive i })

/-- `ExternalControlClient::getMachine` (renodeInterface.cpp
lines 259-315), parameterised by the byte stream the peer answers with.
Wire encoding of the request (4-byte little-endian name length + name
bytes) does not influence the decoded result and is omitted; `name`
appears only as the cache key, as in the source. -/
def getMachine (s : ClientState) (name : String) (stream : List Nat) :
    Option Nat × Error × ClientState :=
  if s.connected = true then
    match sendCommandResult s GET_MACHINE stream with
    | .error e => (none, ⟨2, "send_command failed: " ++ e⟩, s)
    | .ok reply =>
      if reply.length = 4 then
        let descriptor := toInt32 (decodeLE reply)
        if descriptor < 0 then (none, ⟨4, "Machine not found"⟩, s)
        else
          match s.cache name with
          | some id =>
            if s.alive id then (some id, ⟨0, ""⟩, s)
            else registerFresh s name descriptor
          | none => registerFresh s name descriptor
      else (none, ⟨3, "Unexpected reply size from GET_MACHINE"⟩, s)
  else (none, ⟨1, "Not connected"⟩, s)

/-! ## The process-global socket slot (renodeInterface.h line 48)

`static int sock_fd_;` is declared at namespace scope in the header:
every `ExternalControlClient` instance in a translation unit reads and
writes the same slot.  `connect` assigns it (renodeInterface.cpp
line 53), `disconnect` closes it and sets it to `-1` (lines 81-87), and
`send_bytes`/`recv_response` fail with "socket closed" when it is
negative. -/

/-- `connect` succeeding with a fresh OS descriptor: the shared slot is
overwritten regardless of which instance ran it (renodeInterface.cpp
lines 52-64). -/
def connectAssign (_g : Int) (newFd : Int) : Int := newFd

/-- `disconnect` (renodeInterface.cpp lines 81-87): close and reset the
shared slot when it is nonnegative; idempotent otherwise. -/
def disconnectShared (g : Int) : Int :=
  if g ≥ 0 then -1 else g

/-- The guard at the top of `send_bytes` (renodeInterface.cpp
lines 148-151): throw "socket closed" when the shared slot is negative. -/
def sendBytesGuard (g : Int) : Except String Unit :=
  if g < 0 then .error "socket closed" else .ok ()

/-- `recv_response` paired with the client state it runs against: the
body (renodeInterface.cpp lines 156-229) reads the shared descriptor in
its guard but contains no write to `connected`, `sock_fd_` or the
machine cache, so the state component of the result is the input state. -/
def recv_responseSt (s : ClientState) (expected : Nat) (stream : List Nat) :
    Except String (List Nat × List Nat) × ClientState :=
  (if s.sockFd < 0 then .error "socket closed"
   else recv_responseR expected stream, s)

/-- The response layout asserted by the specification (spec §4.2),
written from the spec's words for comparison with the decoder embedded
from the source: for `CommandFailed`, `FatalError` and `SuccessWithData`
read one echoed-command byte, then a 4-byte little-endian payload
length, then exactly that many payload bytes; for `InvalidCommand` and
`SuccessWithoutData` read one echoed-command byte only and take an empty
payload.  Returns the payload and the unconsumed remainder. -/
def claimedShape : List Nat → Option (List Nat × List Nat)
  | [] => none
  | code :: rest =>
    if code = COMMAND_FAILED ∨ code = FATAL_ERROR ∨ code = SUCCESS_WITH_DATA then
      match rest with
      | [] => none
      | _echo :: r2 =>
        match readAll r2 4 with
        | none => none
        | some (szb, r3) => readAll r3 (decodeLE szb)
    else if code = INVALID_COMMAND ∨ code = SUCCESS_WITHOUT_DATA then
      match rest with
      | [] => none
      | _echo :: r2 => some ([], r2)
    else none

/-- Well-formedness of the machine cache, implicit in the source's use of
`std::weak_ptr` entries pointing at `AMachine` objects the client
created: every cached index refers to a machine the client has built,
and two distinct names never share one (each `AMachine` is registered
under exactly the one name it was created for, renodeInterface.cpp
lines 308-314). -/
def Inv (s : ClientState) : Prop :=
  (∀ n i, s.cache n = some i → i < s.heap.length) ∧
  (∀ n m i, s.cache n = some i → s.cache m = some i → n = m)

/-- Concrete client state used to exercise the cache-identity theorem:
connected, one machine already created and cached under "m1", its handle
still held by a caller. -/
def c5State : ClientState :=
  ⟨true, 3, [⟨"x"⟩], fun n => if n = "m1" then some 0 else none,
    fun i => i == 0⟩

/-- Concrete GetMachine success response: SUCCESS_WITH_DATA, echo
GET_MACHINE, 4-byte payload holding descriptor 9. -/
def c5Stream : List Nat := [3, 3, 4, 0, 0, 0, 9, 0, 0, 0]

/-! ## Helper lemmas -/

theorem readAll_append (xs ys : List Nat) :
    readAll (xs ++ ys) xs.length = some (xs, ys) := by
  unfold readAll
  rw [if_pos (by simp)]
  rw [List.take_left, List.drop_left]

theorem readAll_short (xs : List Nat) (n : Nat) (h : xs.length < n) :
    readAll xs n = none := by
  unfold readAll
  rw [if_neg (by omega)]

theorem recvFinish_self (e : Nat) (p r : List Nat) :
    recvFinish e e p r = .ok (p, r) := by
  simp [recvFinish]

theorem recvFinish_sentinel (expected : Nat) (p r : List Nat) :
    recvFinish expected 255 p r = .ok (p, r) := by
  simp [recvFinish]

theorem recvFinishZ_self (e : Nat) (p r : List Nat) :
    recvFinishZ e e p r = .ok (p, r) := by
  simp [recvFinishZ]

theorem recvFinishZ_sentinel (expected : Nat) (p r : List Nat) :
    recvFinishZ expected 255 p r = .ok (p, r) := by
  simp [recvFinishZ]

theorem recvBody_data (expected code received b0 b1 b2 b3 : Nat)
    (data rest : List Nat) (hcode : code = 0 ∨ code = 1 ∨ code = 3)
    (hlen : data.length = decodeLE [b0, b1, b2, b3]) :
    recvBody expected code received (b0 :: b1 :: b2 :: b3 :: (data ++ rest)) =
      recvFinish expected received data rest := by
  have h4 : readAll (b0 :: b1 :: b2 :: b3 :: (data ++ rest)) 4 =
      some ([b0, b1, b2, b3], data ++ rest) := by
    simpa using readAll_append [b0, b1, b2, b3] (data ++ rest)
  have hd : readAll (data ++ rest) (decodeLE [b0, b1, b2, b3]) =
      some (data, rest) := by
    rw [← hlen]; exact readAll_append data rest
  rcases hcode with h | h | h <;> subst h <;>
    simp [recvBody, COMMAND_FAILED, FATAL_ERROR, SUCCESS_WITH_DATA, h4, hd]

theorem recvBodyZ_data (expected code received b0 b1 b2 b3 : Nat)
    (data rest : List Nat) (hcode : code = 1 ∨ code = 6 ∨ code = 3)
    (hlen : data.length = decodeLE [b0, b1, b2, b3]) :
    recvBodyZ expected code received (b0 :: b1 :: b2 :: b3 :: (data ++ rest)) =
      recvFinishZ expected received data rest := by
  have h4 : readAll (b0 :: b1 :: b2 :: b3 :: (data ++ rest)) 4 =
      some ([b0, b1, b2, b3], data ++ rest) := by
    simpa using readAll_append [b0, b1, b2, b3] (data ++ rest)
  have hd : readAll (data ++ rest) (decodeLE [b0, b1, b2, b3]) =
      some (data, rest) := by
    rw [← hlen]; exact readAll_append data rest
  rcases hcode with h | h | h <;> subst h <;> simp [recvBodyZ, h4, hd]

theorem recvR_success_with_data (echo b0 b1 b2 b3 : Nat) (data rest : List Nat)
    (hlen : data.length = decodeLE [b0, b1, b2, b3]) :
    recv_responseR echo
        (SUCCESS_WITH_DATA :: echo :: b0 :: b1 :: b2 :: b3 :: (data ++ rest)) =
      .ok (data, rest) := by
  have h1 : recv_responseR echo
      (SUCCESS_WITH_DATA :: echo :: b0 :: b1 :: b2 :: b3 :: (data ++ rest)) =
      recvBody echo SUCCESS_WITH_DATA echo (b0 :: b1 :: b2 :: b3 :: (data ++ rest)) := by
    simp [recv_responseR, SUCCESS_WITH_DATA]
  rw [h1, recvBody_data echo SUCCESS_WITH_DATA echo b0 b1 b2 b3 data rest
    (Or.inr (Or.inr rfl)) hlen, recvFinish_self]

/-! ## C1: response framing per return code -/

/-- C1 counterexample: for a `FatalError` response the decoder reads NO
echoed-command byte (renodeInterface.cpp line 167 lists COMMAND_FAILED,
INVALID_COMMAND, SUCCESS_WITH_DATA and SUCCESS_WITHOUT_DATA only, in
agreement with defs.h line 59 `FATAL_ERROR // code, data`).  On the
stream `[FATAL_ERROR, 2, 1, 0, 0, 0, 9, 99]` the claimed layout yields
payload `[9]` with `[99]` left over, while the decoder embedded from the
source consumes the would-be echo byte `2` as the low length byte,
computes length 258, hits the truncation branch and returns an empty
payload; conversely the source decodes `[FATAL_ERROR, 1, 0, 0, 0, 9]`
— which has no echo byte at all — to payload `[9]`. -/
theorem recv_response_fatal_echo_cex :
    claimedShape [FATAL_ERROR, 2, 1, 0, 0, 0, 9, 99] = some ([9], [99]) ∧
    recv_responseR 255 [FATAL_ERROR, 2, 1, 0, 0, 0, 9, 99] = .ok ([], []) ∧
    recv_responseR 2 [FATAL_ERROR, 1, 0, 0, 0, 9] = .ok ([9], []) :=
  ⟨rfl, rfl, rfl⟩

/-- C1 (amended): for a response whose return code is `CommandFailed` or
`SuccessWithData` the decoder reads 1 echoed-command byte, then a 4-byte
little-endian payload length, then exactly that many payload bytes; for
`FatalError` it reads the 4-byte length and the payload but NO
echoed-command byte; for `InvalidCommand` and `SuccessWithoutData` it
reads 1 echoed-command byte only and returns an empty payload.  Stated
for both embedded decoders (renodeInterface.cpp numbering via the named
constants, zmqInterface.cpp numbering with its literal codes 1/3/6/2/5). -/
theorem recv_response_framing :
    (∀ echo b0 b1 b2 b3 : Nat, ∀ data rest : List Nat,
      data.length = decodeLE [b0, b1, b2, b3] →
      recv_responseR echo
          (COMMAND_FAILED :: echo :: b0 :: b1 :: b2 :: b3 :: (data ++ rest)) =
        .ok (data, rest)) ∧
    (∀ echo b0 b1 b2 b3 : Nat, ∀ data rest : List Nat,
      data.length = decodeLE [b0, b1, b2, b3] →
      recv_responseR echo
          (SUCCESS_WITH_DATA :: echo :: b0 :: b1 :: b2 :: b3 :: (data ++ rest)) =
        .ok (data, rest)) ∧
    (∀ expected b0 b1 b2 b3 : Nat, ∀ data rest : List Nat,
      data.length = decodeLE [b0, b1, b2, b3] →
      recv_responseR expected
          (FATAL_ERROR :: b0 :: b1 :: b2 :: b3 :: (data ++ rest)) =
        .ok (data, rest)) ∧
    (∀ echo : Nat, ∀ rest : List Nat,
      recv_responseR echo (INVALID_COMMAND :: echo :: rest) = .ok ([], rest)) ∧
    (∀ echo : Nat, ∀ rest : List Nat,
      recv_responseR echo (SUCCESS_WITHOUT_DATA :: echo :: rest) = .ok ([], rest)) ∧
    (∀ echo b0 b1 b2 b3 : Nat, ∀ data rest : List Nat,
      data.length = decodeLE [b0, b1, b2, b3] →
      recv_responseZ echo (1 :: echo :: b0 :: b1 :: b2 :: b3 :: (data ++ rest)) =
        .ok (data, rest)) ∧
    (∀ echo b0 b1 b2 b3 : Nat, ∀ data rest : List Nat,
      data.length = decodeLE [b0, b1, b2, b3] →
      recv_responseZ echo (3 :: echo :: b0 :: b1 :: b2 :: b3 :: (data ++ rest)) =
        .ok (data, rest)) ∧
    (∀ expected b0 b1 b2 b3 : Nat, ∀ data rest : List Nat,
      data.length = decodeLE [b0, b1, b2, b3] →
      recv_responseZ expected (6 :: b0 :: b1 :: b2 :: b3 :: (data ++ rest)) =
        .ok (data, rest)) ∧
    (∀ echo : Nat, ∀ rest : List Nat,
      recv_responseZ echo (2 :: echo :: rest) = .ok ([], rest)) ∧
    (∀ echo : Nat, ∀ rest : List Nat,
      recv_responseZ echo (5 :: echo :: rest) = .ok ([], rest)) := by
  refine ⟨?_, ?_, ?_, ?_, ?_, ?_, ?_, ?_, ?_, ?_⟩
  · intro echo b0 b1 b2 b3 data rest hlen
    have h1 : recv_responseR echo
        (COMMAND_FAILED :: echo :: b0 :: b1 :: b2 :: b3 :: (data ++ rest)) =
        recvBody echo COMMAND_FAILED echo (b0 :: b1 :: b2 :: b3 :: (data ++ rest)) := by
      simp [recv_responseR, COMMAND_FAILED]
    rw [h1, recvBody_data echo COMMAND_FAILED echo b0 b1 b2 b3 data rest (Or.inl rfl) hlen,
      recvFinish_self]
  · intro echo b0 b1 b2 b3 data rest hlen
    exact recvR_success_with_data echo b0 b1 b2 b3 data rest hlen
  · intro expected b0 b1 b2 b3 data rest hlen
    have h1 : recv_responseR expected
        (FATAL_ERROR :: b0 :: b1 :: b2 :: b3 :: (data ++ rest)) =
        recvBody expected FATAL_ERROR 255 (b0 :: b1 :: b2 :: b3 :: (data ++ rest)) := by
      simp [recv_responseR, FATAL_ERROR, COMMAND_FAILED, INVALID_COMMAND,
        SUCCESS_WITH_DATA, SUCCESS_WITHOUT_DATA]
    rw [h1, recvBody_data expected FATAL_ERROR 255 b0 b1 b2 b3 data rest
      (Or.inr (Or.inl rfl)) hlen, recvFinish_sentinel]
  · intro echo rest
    have h1 : recv_responseR echo (INVALID_COMMAND :: echo :: rest) =
        recvBody echo INVALID_COMMAND echo rest := by
      simp [recv_responseR, INVALID_COMMAND]
    rw [h1]
    simp [recvBody, INVALID_COMMAND, COMMAND_FAILED, FATAL_ERROR,
      SUCCESS_WITH_DATA, recvFinish_self]
  · intro echo rest
    have h1 : recv_responseR echo (SUCCESS_WITHOUT_DATA :: echo :: rest) =
        recvBody echo SUCCESS_WITHOUT_DATA echo rest := by
      simp [recv_responseR, SUCCESS_WITHOUT_DATA]
    rw [h1]
    simp [recvBody, SUCCESS_WITHOUT_DATA, COMMAND_FAILED, FATAL_ERROR,
      SUCCESS_WITH_DATA, INVALID_COMMAND, recvFinish_self]
  · intro echo b0 b1 b2 b3 data rest hlen
    have h1 : recv_responseZ echo (1 :: echo :: b0 :: b1 :: b2 :: b3 :: (data ++ rest)) =
        recvBodyZ echo 1 echo (b0 :: b1 :: b2 :: b3 :: (data ++ rest)) := by
      simp [recv_responseZ]
    rw [h1, recvBodyZ_data echo 1 echo b0 b1 b2 b3 data rest (Or.inl rfl) hlen,
      recvFinishZ_self]
  · intro echo b0 b1 b2 b3 data rest hlen
    have h1 : recv_responseZ echo (3 :: echo :: b0 :: b1 :: b2 :: b3 :: (data ++ rest)) =
        recvBodyZ echo 3 echo (b0 :: b1 :: b2 :: b3 :: (data ++ rest)) := by
      simp [recv_responseZ]
    rw [h1, recvBodyZ_data echo 3 echo b0 b1 b2 b3 data rest
      (Or.inr (Or.inr rfl)) hlen, recvFinishZ_self]
  · intro expected b0 b1 b2 b3 data rest hlen
    have h1 : recv_responseZ expected (6 :: b0 :: b1 :: b2 :: b3 :: (data ++ rest)) =
        recvBodyZ expected 6 255 (b0 :: b1 :: b2 :: b3 :: (data ++ rest)) := by
      simp [recv_responseZ]
    rw [h1, recvBodyZ_data expected 6 255 b0 b1 b2 b3 data rest
      (Or.inr (Or.inl rfl)) hlen, recvFinishZ_sentinel]
  · intro echo rest
    have h1 : recv_responseZ echo (2 :: echo :: rest) = recvBodyZ echo 2 echo rest := by
      simp [recv_responseZ]
    rw [h1]
    simp [recvBodyZ, recvFinishZ_self]
  · intro echo rest
    have h1 : recv_responseZ echo (5 :: echo :: rest) = recvBodyZ echo 5 echo rest := by
      simp [recv_responseZ]
    rw [h1]
    simp [recvBodyZ, recvFinishZ_self]

/-- Witness for C1 (amended) at a concrete input: a `FatalError` frame
with length 1 and payload byte 9, no echo byte present. -/
theorem recv_response_framing_witness :
    recv_responseR 7 [FATAL_ERROR, 1, 0, 0, 0, 9] = .ok ([9], []) := by
  have h := recv_response_framing.2.2.1 7 1 0 0 0 [9] [] (by decide)
  simpa using h

/-! ## C2: unrecognized return code -/

/-- C2 counterexample: a response whose first byte is 200 — not one of
the seven defined return codes — is NOT surfaced as an error to the
caller: the `default:` branch (renodeInterface.cpp lines 212-213,
zmqInterface.cpp lines 255-256) only prints to stderr and falls through,
so the caller receives an ordinary empty payload, indistinguishable from
a success without data. -/
theorem recv_response_unknown_code_cex :
    recv_responseSt ⟨true, 3, [], fun _ => none, fun _ => false⟩ 2 [200, 5] =
      (.ok ([], [5]), ⟨true, 3, [], fun _ => none, fun _ => false⟩) ∧
    recv_responseZ 2 [200, 5] = .ok ([], [5]) :=
  ⟨rfl, rfl⟩

/-- C2 (amended): for every response whose first byte is not one of the
seven defined return codes, decoding logs the unrecognized code and
returns an EMPTY payload as a NON-error result (no error is surfaced to
the caller), and the connection state is left unchanged — it remains
open and usable for subsequent commands.  Codes 0-6 are the defined ones
in the renodeInterface.cpp numbering, so the unknown bytes are 7-255;
in the zmqInterface.cpp numbering the switch handles 1,2,3,5,6,7, so
bytes 8-255 (and 0 and 4) take the same logging branch. -/
theorem recv_response_unknown_code (s : ClientState) (expected b : Nat)
    (rest : List Nat) (hfd : 0 ≤ s.sockFd) (hb : 7 ≤ b) :
    recv_responseSt s expected (b :: rest) = (.ok ([], rest), s) ∧
    (8 ≤ b → recv_responseZ expected (b :: rest) = .ok ([], rest)) := by
  have h0 : b ≠ 0 := by omega
  have h1 : b ≠ 1 := by omega
  have h2 : b ≠ 2 := by omega
  have h3 : b ≠ 3 := by omega
  have h4 : b ≠ 4 := by omega
  have h5 : b ≠ 5 := by omega
  have h6 : b ≠ 6 := by omega
  constructor
  · unfold recv_responseSt
    rw [if_neg (by omega)]
    simp [recv_responseR, recvBody, recvFinish, COMMAND_FAILED, FATAL_ERROR,
      INVALID_COMMAND, SUCCESS_WITH_DATA, SUCCESS_WITHOUT_DATA, ASYNC_EVENT,
      h0, h1, h2, h3, h4, h5, h6]
  · intro hb8
    have h7 : b ≠ 7 := by omega
    simp [recv_responseZ, recvBodyZ, recvFinishZ, h1, h2, h3, h5, h6, h7]

/-- Witness for C2 (amended) at the unknown return code 200. -/
theorem recv_response_unknown_code_witness :
    recv_responseSt ⟨true, 5, [], fun _ => none, fun _ => false⟩ 2 [200] =
      (.ok ([], []), ⟨true, 5, [], fun _ => none, fun _ => false⟩) :=
  (recv_response_unknown_code ⟨true, 5, [], fun _ => none, fun _ => false⟩
    2 200 [] (by decide) (by decide)).1

/-! ## C3: full-length receives and truncation behaviour -/

/-- C3 counterexample: a payload length truncated mid-response (return
code SUCCESS_WITH_DATA, echo byte, then only 2 of the 4 length bytes
before the peer closes) does NOT fail the call and does NOT mark the
connection disconnected: the branch at renodeInterface.cpp lines 190-195
logs "truncated data_size" and returns an ordinary empty payload, and
the state — still `connected = true` — is untouched. -/
theorem recv_response_truncated_cex :
    recv_responseSt ⟨true, 3, [], fun _ => none, fun _ => false⟩ 2 [3, 2, 0, 0] =
      (.ok ([], []), ⟨true, 3, [], fun _ => none, fun _ => false⟩) :=
  rfl

/-- C3 (amended): `read_all` loops until exactly `n` bytes are read and
reports failure as soon as the underlying read returns zero or an error;
a failed read of the return code raises a fatal error in recv_response,
but a truncated 4-byte payload length or truncated payload mid-response
is only logged: recv_response returns an empty payload as a non-error
result and the connection state is NOT modified (in particular it is not
marked disconnected). -/
theorem read_all_exact_and_truncation (s : ClientState) (expected echo : Nat)
    (pre data : List Nat) (b0 b1 b2 b3 : Nat) (hfd : 0 ≤ s.sockFd)
    (hpre : pre.length < 4) (hdata : data.length < decodeLE [b0, b1, b2, b3]) :
    (∀ n : Nat, ∀ fs : List (List Nat), ∀ bs : List Nat,
      read_all_frag n fs = some bs → bs.length = n) ∧
    (∀ n : Nat, ∀ fs : List (List Nat),
      read_all_frag (n + 1) ([] :: fs) = none) ∧
    (∀ n : Nat, read_all_frag (n + 1) [] = none) ∧
    recv_responseSt s expected (SUCCESS_WITH_DATA :: echo :: pre) =
      (.ok ([], []), s) ∧
    recv_responseSt s expected
        (SUCCESS_WITH_DATA :: echo :: b0 :: b1 :: b2 :: b3 :: data) =
      (.ok ([], []), s) := by
  refine ⟨?_, ?_, ?_, ?_, ?_⟩
  · intro n fs
    induction fs generalizing n with
    | nil =>
      intro bs h
      cases n with
      | zero => simp [read_all_frag] at h; simp [← h]
      | succ m => simp [read_all_frag] at h
    | cons f fs ih =>
      intro bs h
      cases n with
      | zero => simp [read_all_frag] at h; simp [← h]
      | succ m =>
        rw [read_all_frag] at h
        by_cases hf : f.length = 0
        · rw [if_pos hf] at h; exact absurd h (by simp)
        · rw [if_neg hf] at h
          by_cases hle : f.length ≤ m + 1
          · rw [if_pos hle] at h
            cases htl : read_all_frag (m + 1 - f.length) fs with
            | none => rw [htl] at h; exact absurd h (by simp)
            | some tl =>
              rw [htl] at h
              simp only [Option.map_some'] at h
              have := ih _ _ htl
              cases h
              simp [List.length_append, this]
              omega
          · rw [if_neg hle] at h; exact absurd h (by simp)
  · intro n fs
    rw [read_all_frag]
    simp
  · intro n
    rw [read_all_frag]
  · have htr : readAll pre 4 = none := readAll_short pre 4 (by omega)
    unfold recv_responseSt
    rw [if_neg (by omega)]
    simp [recv_responseR, recvBody, SUCCESS_WITH_DATA, COMMAND_FAILED,
      FATAL_ERROR, INVALID_COMMAND, SUCCESS_WITHOUT_DATA, htr]
  · have h4 : readAll (b0 :: b1 :: b2 :: b3 :: data) 4 =
        some ([b0, b1, b2, b3], data) := by
      simpa using readAll_append [b0, b1, b2, b3] data
    have htr : readAll data (decodeLE [b0, b1, b2, b3]) = none :=
      readAll_short data _ hdata
    unfold recv_responseSt
    rw [if_neg (by omega)]
    simp [recv_responseR, recvBody, SUCCESS_WITH_DATA, COMMAND_FAILED,
      FATAL_ERROR, INVALID_COMMAND, SUCCESS_WITHOUT_DATA, h4, htr]

/-- Witness for C3 (amended): a fragmented read of 3 bytes delivered one
byte at a time, a truncated length, and a truncated payload, all at
concrete inputs. -/
theorem read_all_exact_and_truncation_witness :
    ([9, 8, 7] : List Nat).length = 3 ∧
    recv_responseSt ⟨true, 9, [], fun _ => none, fun _ => false⟩ 2 [3, 2, 0] =
      (.ok ([], []), ⟨true, 9, [], fun _ => none, fun _ => false⟩) ∧
    recv_responseSt ⟨true, 9, [], fun _ => none, fun _ => false⟩ 2
        [3, 2, 2, 0, 0, 0, 1] =
      (.ok ([], []), ⟨true, 9, [], fun _ => none, fun _ => false⟩) := by
  have h := read_all_exact_and_truncation
    ⟨true, 9, [], fun _ => none, fun _ => false⟩ 2 2 [0] [1] 2 0 0 0
    (by decide) (by decide) (by decide)
  exact ⟨h.1 3 [[9], [8], [7]] [9, 8, 7] rfl, h.2.2.2.1, h.2.2.2.2⟩

/-! ## C7: handshake encoding and result interpretation -/

/-- C7: with the fixed activation table the encoded handshake buffer is
the constant `[6, 0, 1, 0, 2, 0, 3, 0, 4, 0, 5, 1, 6, 0]` — a 2-byte
little-endian count (6, well under the 65535 bound checked at
renodeInterface.cpp line 91) followed by the (command id, version) pairs
in table order — hence byte-identical across repeated calls; exactly one
response byte decides the outcome: `OK_HANDSHAKE` (5) yields success and
any other byte (or a failed read) yields failure, with no retry and no
exception. -/
theorem performHandshake_spec :
    encodeHandshake command_versions =
      some [6, 0, 1, 0, 2, 0, 3, 0, 4, 0, 5, 1, 6, 0] ∧
    command_versions.length ≤ 65535 ∧
    performHandshake (some OK_HANDSHAKE) = true ∧
    (∀ b : Nat, b ≠ 5 → performHandshake (some b) = false) ∧
    performHandshake none = false := by
  refine ⟨rfl, by decide, rfl, ?_, rfl⟩
  intro b hb
  simp [performHandshake, command_versions, OK_HANDSHAKE, hb]

/-- Witness for C7 at the concrete rejected response byte 7. -/
theorem performHandshake_spec_witness :
    performHandshake (some 7) = false ∧ performHandshake (some 5) = true :=
  ⟨performHandshake_spec.2.2.2.1 7 (by decide), performHandshake_spec.2.2.1⟩

/-! ## C9: getCurrentTime decoding and unit conversion -/

/-- C9: for a successful GetTime round trip — SUCCESS_WITH_DATA, echo
`GET_TIME`, an 8-byte payload — `getCurrentTime` decodes the payload as
a little-endian microsecond counter and divides it by the requested
`TimeUnit` value (1, 1000 or 1000000); in particular the payload
encoding 1000000 yields 1000000 microseconds, i.e. 1000 milliseconds,
i.e. 1 second. -/
theorem getCurrentTime_spec :
    getCurrentTime [3, 2, 8, 0, 0, 0, 64, 66, 15, 0, 0, 0, 0, 0]
      .TU_MICROSECONDS = some 1000000 ∧
    getCurrentTime [3, 2, 8, 0, 0, 0, 64, 66, 15, 0, 0, 0, 0, 0]
      .TU_MILLISECONDS = some 1000 ∧
    getCurrentTime [3, 2, 8, 0, 0, 0, 64, 66, 15, 0, 0, 0, 0, 0]
      .TU_SECONDS = some 1 ∧
    (∀ b0 b1 b2 b3 b4 b5 b6 b7 : Nat, ∀ rest : List Nat, ∀ unit : TimeUnit,
      getCurrentTime
          (3 :: 2 :: 8 :: 0 :: 0 :: 0 ::
            b0 :: b1 :: b2 :: b3 :: b4 :: b5 :: b6 :: b7 :: rest) unit =
        some (decodeLE [b0, b1, b2, b3, b4, b5, b6, b7] / timeUnitValue unit)) := by
  refine ⟨rfl, rfl, rfl, ?_⟩
  intro b0 b1 b2 b3 b4 b5 b6 b7 rest unit
  have hshape : (3 : Nat) :: 2 :: 8 :: 0 :: 0 :: 0 ::
      b0 :: b1 :: b2 :: b3 :: b4 :: b5 :: b6 :: b7 :: rest =
      SUCCESS_WITH_DATA :: 2 :: 8 :: 0 :: 0 :: 0 ::
        ([b0, b1, b2, b3, b4, b5, b6, b7] ++ rest) := rfl
  have hr := recvR_success_with_data 2 8 0 0 0
    [b0, b1, b2, b3, b4, b5, b6, b7] rest (by rfl)
  unfold getCurrentTime
  have hg : GET_TIME = 2 := rfl
  rw [hg, hshape, hr]
  simp

/-! ## C8: echo mismatch -/

theorem recvFinish_mismatch (expected received : Nat) (p r : List Nat)
    (h1 : received ≠ 255) (h2 : received ≠ expected) :
    recvFinish expected received p r =
      .error "recv_response: command mismatch (server echoed different command)" := by
  simp [recvFinish, h1, h2]

theorem recvFinishZ_mismatch (expected received : Nat) (p r : List Nat)
    (h0 : expected ≠ 255) (h1 : received ≠ 255) (h2 : received ≠ expected) :
    recvFinishZ expected received p r =
      .error "recv_response: command mismatch (server echoed different command)" := by
  simp [recvFinishZ, h0, h1, h2]

/-- C8 counterexample: the decoder treats an echoed byte equal to `0xFF`
as "no echo read" (`received_command` is initialised to `0xFF` at
renodeInterface.cpp line 165 and the validation at line 217 skips that
sentinel), so a `SuccessWithData` response echoing command `0xFF` while
the caller expected command 2 returns the payload with NO error, even
though the echoed id differs from the expected id. -/
theorem recv_response_echo_sentinel_cex :
    recv_responseR 2 [3, 255, 1, 0, 0, 0, 42] = .ok ([42], []) ∧
    recv_responseZ 2 [3, 255, 1, 0, 0, 0, 42] = .ok ([42], []) :=
  ⟨rfl, rfl⟩

/-- C8 (amended): for every command response in which an echoed-command
byte other than the `0xFF` sentinel was read and the caller specified an
expected command id (in the zmqInterface.cpp variant: an expected id
other than the `0xFF` bypass value): if the echoed id differs from the
expected id, the call reports an error, the response payload is
discarded (the error result carries no payload), and the connection
state is unchanged — the mismatch is not treated as transport
corruption. -/
theorem recv_response_echo_mismatch (s : ClientState)
    (expected echo b0 b1 b2 b3 : Nat) (data rest rest2 : List Nat)
    (hfd : 0 ≤ s.sockFd) (hsent : echo ≠ 255) (hmis : echo ≠ expected)
    (hlen : data.length = decodeLE [b0, b1, b2, b3]) :
    recv_responseSt s expected (INVALID_COMMAND :: echo :: rest2) =
      (.error "recv_response: command mismatch (server echoed different command)", s) ∧
    recv_responseSt s expected (SUCCESS_WITHOUT_DATA :: echo :: rest2) =
      (.error "recv_response: command mismatch (server echoed different command)", s) ∧
    recv_responseSt s expected
        (SUCCESS_WITH_DATA :: echo :: b0 :: b1 :: b2 :: b3 :: (data ++ rest)) =
      (.error "recv_response: command mismatch (server echoed different command)", s) ∧
    (expected ≠ 255 →
      recv_responseZ expected (2 :: echo :: rest2) =
        .error "recv_response: command mismatch (server echoed different command)") := by
  refine ⟨?_, ?_, ?_, ?_⟩
  · unfold recv_responseSt
    rw [if_neg (by omega)]
    have h1 : recv_responseR expected (INVALID_COMMAND :: echo :: rest2) =
        recvBody expected INVALID_COMMAND echo rest2 := by
      simp [recv_responseR, INVALID_COMMAND]
    rw [h1]
    simp only [recvBody, INVALID_COMMAND, COMMAND_FAILED, FATAL_ERROR,
      SUCCESS_WITH_DATA, SUCCESS_WITHOUT_DATA, ASYNC_EVENT]
    rw [recvFinish_mismatch expected echo [] rest2 hsent hmis]
    simp
  · unfold recv_responseSt
    rw [if_neg (by omega)]
    have h1 : recv_responseR expected (SUCCESS_WITHOUT_DATA :: echo :: rest2) =
        recvBody expected SUCCESS_WITHOUT_DATA echo rest2 := by
      simp [recv_responseR, SUCCESS_WITHOUT_DATA]
    rw [h1]
    simp only [recvBody, INVALID_COMMAND, COMMAND_FAILED, FATAL_ERROR,
      SUCCESS_WITH_DATA, SUCCESS_WITHOUT_DATA, ASYNC_EVENT]
    rw [recvFinish_mismatch expected echo [] rest2 hsent hmis]
    simp
  · unfold recv_responseSt
    rw [if_neg (by omega)]
    have h1 : recv_responseR expected
        (SUCCESS_WITH_DATA :: echo :: b0 :: b1 :: b2 :: b3 :: (data ++ rest)) =
        recvBody expected SUCCESS_WITH_DATA echo
          (b0 :: b1 :: b2 :: b3 :: (data ++ rest)) := by
      simp [recv_responseR, SUCCESS_WITH_DATA]
    rw [h1, recvBody_data expected SUCCESS_WITH_DATA echo b0 b1 b2 b3 data rest
      (Or.inr (Or.inr rfl)) hlen,
      recvFinish_mismatch expected echo data rest hsent hmis]
  · intro hexp
    have h1 : recv_responseZ expected (2 :: echo :: rest2) =
        recvBodyZ expected 2 echo rest2 := by
      simp [recv_responseZ]
    rw [h1]
    simp only [recvBodyZ]
    rw [recvFinishZ_mismatch expected echo [] rest2 hexp hsent hmis]
    simp

/-- Witness for C8 (amended): expected command 2, echoed command 3. -/
theorem recv_response_echo_mismatch_witness :
    recv_responseSt ⟨true, 4, [], fun _ => none, fun _ => false⟩ 2 [4, 3] =
      (.error "recv_response: command mismatch (server echoed different command)",
        ⟨true, 4, [], fun _ => none, fun _ => false⟩) :=
  (recv_response_echo_mismatch ⟨true, 4, [], fun _ => none, fun _ => false⟩
    2 3 0 0 0 0 [] [] [] (by decide) (by decide) (by decide) (by decide)).2.1

/-! ## getMachine: case-analysis lemmas -/

theorem errTriple {e1 e : Error} {s s' : ClientState}
    (h : ((none : Option Nat), e1, s) = (none, e, s')) (hc : e1.code ≠ 0) :
    s' = s ∧ e.code ≠ 0 := by
  rw [Prod.mk.injEq, Prod.mk.injEq] at h
  exact ⟨h.2.2.symm, h.2.1 ▸ hc⟩

/-- Every error return of `getMachine` (result `none`) happens on a path
that returns the state unchanged, with a nonzero error code. -/
theorem getMachine_none_eq (s : ClientState) (name : String)
    (stream : List Nat) (e : Error) (s' : ClientState)
    (h : getMachine s name stream = (none, e, s')) :
    s' = s ∧ e.code ≠ 0 := by
  simp only [getMachine] at h
  split at h
  · split at h
    · exact errTriple h (by simp)
    · split at h
      · split at h
        · exact errTriple h (by simp)
        · split at h
          · split at h
            · exact absurd h (by simp)
            · simp only [registerFresh] at h
              exact absurd h (by simp)
          · simp only [registerFresh] at h
            exact absurd h (by simp)
      · exact errTriple h (by simp)
  · exact errTriple h (by simp)

/-- Every success of `getMachine` either came from a live cache hit —
returning the cached index with the state unchanged — or created the
fresh machine `s.heap.length` (only possible when no live cached machine
existed for the name) and registered it. -/
theorem getMachine_some_cases (s : ClientState) (name : String)
    (stream : List Nat) (id : Nat) (e : Error) (s' : ClientState)
    (h : getMachine s name stream = (some id, e, s')) :
    (s.cache name = some id ∧ s.alive id = true ∧ s' = s) ∨
    (id = s.heap.length ∧
      (∀ cid, s.cache name = some cid → s.alive cid = false) ∧
      ∃ md, s' = { s with
        heap := s.heap ++ [md],
        cache := fun n => if n = name then some id else s.cache n,
        alive := fun i => if i = id then true else s.alive i }) := by
  simp only [getMachine] at h
  split at h
  · split at h
    · exact absurd h (by simp)
    · split at h
      · split at h
        · exact absurd h (by simp)
        · split at h
          case h_1 cid hcache =>
            split at h
            case isTrue halive =>
              rw [Prod.mk.injEq, Prod.mk.injEq] at h
              obtain ⟨hid, -, hs⟩ := h
              left
              rw [Option.some.injEq] at hid
              exact ⟨hid ▸ hcache, hid ▸ halive, hs.symm⟩
            case isFalse halive =>
              simp only [registerFresh] at h
              rw [Prod.mk.injEq, Prod.mk.injEq] at h
              obtain ⟨hid, -, hs⟩ := h
              rw [Option.some.injEq] at hid
              right
              refine ⟨hid.symm, ?_, ?_⟩
              · intro c hc
                rw [hcache] at hc
                rw [Option.some.injEq] at hc
                subst hc
                exact Bool.not_eq_true _ ▸ halive
              · exact ⟨_, by rw [← hs, hid]⟩
          case h_2 hcache =>
            simp only [registerFresh] at h
            rw [Prod.mk.injEq, Prod.mk.injEq] at h
            obtain ⟨hid, -, hs⟩ := h
            rw [Option.some.injEq] at hid
            right
            refine ⟨hid.symm, ?_, ?_⟩
            · intro c hc
              rw [hcache] at hc
              exact absurd hc (by simp)
            · exact ⟨_, by rw [← hs, hid]⟩
      · exact absurd h (by simp)
  · exact absurd h (by simp)

/-- `getMachine` preserves the cache well-formedness invariant. -/
theorem getMachine_preserves_Inv (s : ClientState) (name : String)
    (stream : List Nat) (r : Option Nat) (e : Error) (s' : ClientState)
    (hInv : Inv s) (h : getMachine s name stream = (r, e, s')) : Inv s' := by
  cases r with
  | none =>
    obtain ⟨hs, -⟩ := getMachine_none_eq s name stream e s' h
    exact hs ▸ hInv
  | some id =>
    rcases getMachine_some_cases s name stream id e s' h with
      ⟨-, -, hs⟩ | ⟨hid, -, md, hs⟩
    · exact hs ▸ hInv
    · subst hs
      obtain ⟨hbound, hinj⟩ := hInv
      constructor
      · intro n i hc
        simp only at hc
        by_cases hn : n = name
        · rw [if_pos hn] at hc
          rw [Option.some.injEq] at hc
          simp [← hc, hid]
        · rw [if_neg hn] at hc
          have := hbound n i hc
          simp
          omega
      · intro n m i hcn hcm
        simp only at hcn hcm
        by_cases hn : n = name <;> by_cases hm : m = name
        · rw [hn, hm]
        · rw [if_pos hn] at hcn
          rw [if_neg hm] at hcm
          rw [Option.some.injEq] at hcn
          have := hbound m i hcm
          omega
        · rw [if_neg hn] at hcn
          rw [if_pos hm] at hcm
          rw [Option.some.injEq] at hcm
          have := hbound n i hcn
          omega
        · rw [if_neg hn] at hcn
          rw [if_neg hm] at hcm
          exact hinj n m i hcn hcm

/-- On success `getMachine` leaves the returned machine registered in
the cache under the requested name, with its handle live. -/
theorem getMachine_some_post (s : ClientState) (name : String)
    (stream : List Nat) (id : Nat) (e : Error) (s' : ClientState)
    (h : getMachine s name stream = (some id, e, s')) :
    s'.cache name = some id ∧ s'.alive id = true := by
  rcases getMachine_some_cases s name stream id e s' h with
    ⟨hc, ha, hs⟩ | ⟨-, -, md, hs⟩
  · exact ⟨hs ▸ hc, hs ▸ ha⟩
  · subst hs
    constructor
    · simp
    · simp

/-! ## C10: error paths leave the cache untouched -/

/-- C10: every `getMachine` call that produces an error (no handle, a
nonzero error code) — not-connected, send/receive failure, wrong-size
reply, or negative descriptor — returns before the cache lookup at
renodeInterface.cpp line 303, so the entire client state (in particular
the machine-name cache) is left unchanged. -/
theorem getMachine_error_cache_unchanged (s : ClientState) (name : String)
    (stream : List Nat) (e : Error) (s' : ClientState)
    (h : getMachine s name stream = (none, e, s')) :
    s' = s ∧ e.code ≠ 0 :=
  getMachine_none_eq s name stream e s' h

/-- Witness for C10 at a concrete not-connected client. -/
theorem getMachine_error_cache_unchanged_witness :
    (⟨false, 3, [], fun _ => none, fun _ => false⟩ : ClientState) =
      ⟨false, 3, [], fun _ => none, fun _ => false⟩ ∧
    (Error.mk 1 "Not connected").code ≠ 0 :=
  getMachine_error_cache_unchanged
    ⟨false, 3, [], fun _ => none, fun _ => false⟩ "m1" []
    ⟨1, "Not connected"⟩ ⟨false, 3, [], fun _ => none, fun _ => false⟩ rfl

/-! ## C4: GetMachine reply validation -/

/-- C4: on a connected client, a GetMachine reply whose payload is not
exactly 4 bytes yields the unexpected-reply-size error (code 3) and no
handle; a 4-byte payload decoding to a negative little-endian signed
32-bit descriptor yields the not-found error (code 4) and no handle; and
any call that does produce a handle decoded a 4-byte payload whose
descriptor was nonnegative. -/
theorem getMachine_descriptor_validation (s : ClientState) (name : String)
    (stream : List Nat) (hc : s.connected = true) (hfd : 0 ≤ s.sockFd) :
    (∀ reply rest : List Nat,
      recv_responseR GET_MACHINE stream = .ok (reply, rest) →
      reply.length ≠ 4 →
      getMachine s name stream =
        (none, ⟨3, "Unexpected reply size from GET_MACHINE"⟩, s)) ∧
    (∀ reply rest : List Nat,
      recv_responseR GET_MACHINE stream = .ok (reply, rest) →
      reply.length = 4 → toInt32 (decodeLE reply) < 0 →
      getMachine s name stream = (none, ⟨4, "Machine not found"⟩, s)) ∧
    (∀ id : Nat, ∀ e : Error, ∀ s' : ClientState,
      getMachine s name stream = (some id, e, s') →
      ∃ reply rest : List Nat,
        recv_responseR GET_MACHINE stream = .ok (reply, rest) ∧
        reply.length = 4 ∧ 0 ≤ toInt32 (decodeLE reply)) := by
  have hsc : ∀ reply rest : List Nat,
      recv_responseR GET_MACHINE stream = .ok (reply, rest) →
      sendCommandResult s GET_MACHINE stream = .ok reply := by
    intro reply rest hr
    unfold sendCommandResult
    rw [if_neg (by omega), hr]
  refine ⟨?_, ?_, ?_⟩
  · intro reply rest hr hlen
    simp only [getMachine, hc, if_true, hsc reply rest hr]
    rw [if_neg hlen]
  · intro reply rest hr hlen hneg
    simp only [getMachine, hc, if_true, hsc reply rest hr]
    rw [if_pos hlen, if_pos hneg]
  · intro id e s' h
    simp only [getMachine, hc, if_true] at h
    split at h
    case h_1 msg heq => exact absurd h (by simp)
    case h_2 reply heq =>
      have hrr : ∃ rest, recv_responseR GET_MACHINE stream = .ok (reply, rest) := by
        unfold sendCommandResult at heq
        rw [if_neg (by omega)] at heq
        split at heq
        case h_1 msg hrec => exact absurd heq (by simp)
        case h_2 p r hrec =>
          rw [Except.ok.injEq] at heq
          exact ⟨r, by rw [hrec, heq]⟩
      obtain ⟨rest, hrec⟩ := hrr
      split at h
      case isTrue hlen =>
        split at h
        case isTrue hneg => exact absurd h (by simp)
        case isFalse hneg =>
          exact ⟨reply, rest, hrec, hlen, Int.not_lt.mp hneg⟩
      case isFalse hlen => exact absurd h (by simp)

/-- Witness for C4: a 2-byte reply produces error 3; a reply decoding to
descriptor -1 (bytes 255,255,255,255) produces error 4. -/
theorem getMachine_descriptor_validation_witness :
    getMachine ⟨true, 3, [], fun _ => none, fun _ => false⟩ "m1"
        [3, 3, 2, 0, 0, 0, 1, 2] =
      (none, ⟨3, "Unexpected reply size from GET_MACHINE"⟩,
        ⟨true, 3, [], fun _ => none, fun _ => false⟩) ∧
    getMachine ⟨true, 3, [], fun _ => none, fun _ => false⟩ "m1"
        [3, 3, 4, 0, 0, 0, 255, 255, 255, 255] =
      (none, ⟨4, "Machine not found"⟩,
        ⟨true, 3, [], fun _ => none, fun _ => false⟩) := by
  constructor
  · exact (getMachine_descriptor_validation
      ⟨true, 3, [], fun _ => none, fun _ => false⟩ "m1"
      [3, 3, 2, 0, 0, 0, 1, 2] rfl (by decide)).1 [1, 2] [] rfl (by decide)
  · exact (getMachine_descriptor_validation
      ⟨true, 3, [], fun _ => none, fun _ => false⟩ "m1"
      [3, 3, 4, 0, 0, 0, 255, 255, 255, 255] rfl (by decide)).2.1
      [255, 255, 255, 255] [] rfl (by decide) (by decide)

/-! ## C5: machine-handle cache identity -/

/-- C5: starting from a well-formed client, after a successful
`getMachine name` returned handle `id₁` while the caller still holds it:
(1) any further successful `getMachine` with the same name returns the
identical handle and leaves the state untouched — so the two results are
the same object and metadata mutation through one is visible through the
other; (2) any successful `getMachine` with a different name returns an
independent machine (a distinct handle); (3) the cache entry for the
name is exactly the live handle `id₁` that the caller holds — it cannot
resolve to a handle describing a different remote descriptor than the
live handle registered for that name. -/
theorem getMachine_cache_identity (s : ClientState) (name : String)
    (st₁ : List Nat) (id₁ : Nat) (e₁ : Error) (s₁ : ClientState)
    (hInv : Inv s) (h₁ : getMachine s name st₁ = (some id₁, e₁, s₁)) :
    (∀ st₂ : List Nat, ∀ id₂ : Nat, ∀ e₂ : Error, ∀ s₂ : ClientState,
      getMachine s₁ name st₂ = (some id₂, e₂, s₂) → id₂ = id₁ ∧ s₂ = s₁) ∧
    (∀ name' : String, ∀ st₂ : List Nat, ∀ id₂ : Nat, ∀ e₂ : Error,
      ∀ s₂ : ClientState, name' ≠ name →
      getMachine s₁ name' st₂ = (some id₂, e₂, s₂) → id₂ ≠ id₁) ∧
    s₁.cache name = some id₁ ∧ s₁.alive id₁ = true := by
  obtain ⟨hcache₁, halive₁⟩ := getMachine_some_post s name st₁ id₁ e₁ s₁ h₁
  have hInv₁ : Inv s₁ :=
    getMachine_preserves_Inv s name st₁ (some id₁) e₁ s₁ hInv h₁
  refine ⟨?_, ?_, hcache₁, halive₁⟩
  · intro st₂ id₂ e₂ s₂ h₂
    rcases getMachine_some_cases s₁ name st₂ id₂ e₂ s₂ h₂ with
      ⟨hc, -, hs⟩ | ⟨-, hstale, -⟩
    · rw [hcache₁] at hc
      rw [Option.some.injEq] at hc
      exact ⟨hc.symm, hs⟩
    · have := hstale id₁ hcache₁
      rw [halive₁] at this
      exact absurd this (by simp)
  · intro name' st₂ id₂ e₂ s₂ hne h₂
    rcases getMachine_some_cases s₁ name' st₂ id₂ e₂ s₂ h₂ with
      ⟨hc, -, -⟩ | ⟨hid, -, -⟩
    · intro heq
      exact hne (hInv₁.2 name' name id₁ (heq ▸ hc) hcache₁)
    · intro heq
      have := hInv₁.1 name id₁ hcache₁
      omega

/-- Witness for C5 at a concrete client: "m1" is cached as machine 0 and
still held; a repeat lookup returns 0 with the state unchanged, and a
lookup of "m2" creates the distinct machine 1. -/
theorem getMachine_cache_identity_witness :
    c5State.cache "m1" = some 0 ∧ c5State.alive 0 = true ∧ (1 : Nat) ≠ 0 := by
  have hInv : Inv c5State := by
    constructor
    · intro n i h
      simp only [c5State] at h ⊢
      by_cases hn : n = "m1"
      · rw [if_pos hn] at h
        rw [Option.some.injEq] at h
        subst h
        decide
      · rw [if_neg hn] at h
        exact absurd h (by simp)
    · intro n m i hn hm
      simp only [c5State] at hn hm
      by_cases h1 : n = "m1" <;> by_cases h2 : m = "m1"
      · rw [h1, h2]
      · rw [if_neg h2] at hm
        exact absurd hm (by simp)
      · rw [if_neg h1] at hn
        exact absurd hn (by simp)
      · rw [if_neg h1] at hn
        exact absurd hn (by simp)
  have h := getMachine_cache_identity c5State "m1" c5Stream 0 ⟨0, ""⟩ c5State
    hInv rfl
  refine ⟨h.2.2.1, h.2.2.2, ?_⟩
  exact h.2.1 "m2" c5Stream 1 ⟨0, ""⟩
    (getMachine c5State "m2" c5Stream).2.2 (by decide) rfl

/-! ## C6: socket ownership across client instances -/

/-- C6 (code defect): `sock_fd_` is a single namespace-scope `static int`
declared in renodeInterface.h line 48 and therefore shared by every
`ExternalControlClient` instance in a translation unit, not owned per
instance.  Two clients interfere: with client A connected through
descriptor 3 in the shared slot, client B's `connect` overwrites the
slot (the socket state A observes changes from 3 to 4), and B's
`disconnect` closes it and resets it to -1, after which A's next
`send_bytes` fails with "socket closed" even though A never
disconnected. -/
theorem shared_socket_interference :
    connectAssign 3 4 ≠ 3 ∧
    disconnectShared (connectAssign 3 4) = -1 ∧
    sendBytesGuard (disconnectShared (connectAssign 3 4)) =
      .error "socket closed" :=
  ⟨by decide, by decide, rfl⟩

end Renode
